import Mathlib

/-!
Verification development for the prompto prompt-lifecycle manager.

The definitions below are a shallow embedding of the TypeScript sources:
the five-operation `PromptManager` (listPrompts / getPrompt / createPrompt /
updatePrompt / deletePrompt), the stub manager of the JSON-RPC endpooint
(`api/mcp.js`), the credential resolvers of the remote MCP surface and of
the CLI, and the update-building logic of the CLI `update` command and the
MCP `prompt_update` tool.

External collaborators (the LangSmith hub, `pull`/`push`, langchain template
rendering, date parsing) are modelled as explicit oracle state: a `Hub`
record carries what the remote calls would return, and every manager
operation returns, besides its result, the trace of hub interactions it
performed (`HubEvent`), so that claims about "no fetch / no publish" are
provable.
-/

/-- Template syntax: `"mustache"` or `"f-string"` in the source. -/
inductive TemplateFormat where
  | mustache
  | fstring
deriving DecidableEq, Repr

/-- A prompt record as returned by the hub listing (`Prompt` from
`langsmith/schemas`); `updated_at` stands for the parsed timestamp
(`new Date(p.updated_at).getTime()`), modelled as a natural number. -/
structure Prompt where
  full_name : String
  updated_at : Nat
  description : Option String
  tags : List String
deriving DecidableEq, Repr

/-- The metadata record returned by `client.getPrompt(promptId)`.
Each field is optional: the remote record may omit any of them. -/
structure RemotePrompt where
  description : Option String
  tags : Option (List String)
  readme : Option String
  is_public : Option Bool
deriving DecidableEq, Repr

/-- The serialized template body: either a plain string, or a structured
(truthy, non-string) value the manager refuses to round-trip. -/
inductive TemplateValue where
  | str (s : String)
  | structured
deriving DecidableEq, Repr

/-- Result of `promptTemplate.serialize()`. -/
structure SerializedTemplate where
  template : Option TemplateValue
  template_format : Option TemplateFormat
  input_variables : Option (List String)
deriving DecidableEq, Repr

/-- The template object returned by `pull(promptId, ...)`, together with
its serialization (the code reads both `serialized.*` and the object's own
`templateFormat` / `inputVariables` as fallbacks). -/
structure PulledTemplate where
  serialized : SerializedTemplate
  templateFormat : Option TemplateFormat
  inputVariables : Option (List String)
deriving DecidableEq, Repr

/-- Oracle state for one operation: what each remote call would return.
`promptExists` is the existence probe, `currentPrompt` the metadata fetch
(`null` allowed), `pulled` the `pull` result (`null` allowed), `rendered`
the value produced by the external langchain rendering in `getPrompt`. -/
structure Hub where
  promptExists : Bool
  currentPrompt : Option RemotePrompt
  pulled : Option PulledTemplate
  rendered : Option String
deriving DecidableEq, Repr

/-- `PromptDefinition` from the manager source: desired full state. -/
structure PromptDefinition where
  template : String
  templateFormat : Option TemplateFormat
  templateVariables : Option (List String)
  description : Option String
  tags : Option (List String)
  readme : Option String
  isPublic : Option Bool
deriving DecidableEq, Repr

/-- `PromptUpdate = Partial<PromptDefinition>`: every field optional. -/
structure PromptUpdate where
  template : Option String := none
  templateFormat : Option TemplateFormat := none
  templateVariables : Option (List String) := none
  description : Option String := none
  tags : Option (List String) := none
  readme : Option String := none
  isPublic : Option Bool := none
deriving DecidableEq, Repr

/-- `Object.keys(updates).length === 0` for a built update object in which
a key is present exactly when the corresponding field is `some`. -/
def PromptUpdate.isEmpty (u : PromptUpdate) : Bool :=
  u.template.isNone && u.templateFormat.isNone && u.templateVariables.isNone &&
    u.description.isNone && u.tags.isNone && u.readme.isNone && u.isPublic.isNone

/-- The `PromptUpdate` with no field provided. -/
def emptyUpdate : PromptUpdate := {}

/-- The full definition handed to `push`: template/format/variables are
always concrete at that point, description/tags/readme may be absent,
`isPublic` is always a concrete boolean. -/
structure PublishedPrompt where
  template : String
  templateFormat : TemplateFormat
  inputVariables : List String
  description : Option String
  tags : Option (List String)
  readme : Option String
  isPublic : Bool
deriving DecidableEq, Repr

/-- Error taxonomy of the manager and tool surfaces. -/
inductive PromptError where
  | notFound (promptId : String)
  | loadFailed (promptId : String)
  | unsupportedTemplateType
  | missingTemplate
  | missingCredential
  | nothingToUpdate
deriving DecidableEq, Repr

/-- One remote interaction performed by a manager operation. -/
inductive HubEvent where
  | probe
  | fetch
  | pull
  | publish
  | delete
deriving DecidableEq, Repr

/-- JS nullish coalescing `a ?? b` on optional values. -/
def coalesce {α : Type} (a b : Option α) : Option α :=
  match a with
  | some x => some x
  | none => b

/-- The string body of a serialized template, when it is a plain string. -/
def TemplateValue.asString : TemplateValue → Option String
  | .str s => some s
  | .structured => none

/-- `updates.template ?? serialized.template` restricted to the string case
(reached only after the structured case has been rejected). -/
def remoteTemplate (pt : PulledTemplate) : Option String :=
  pt.serialized.template.bind TemplateValue.asString

/-- `serialized.template_format ?? promptTemplate.templateFormat`: the
remote template format, before the codec default. -/
def remoteFormat (pt : PulledTemplate) : Option TemplateFormat :=
  coalesce pt.serialized.template_format pt.templateFormat

/-- `serialized.input_variables ?? promptTemplate.inputVariables`: the
remote variable list, before the codec default. -/
def remoteVars (pt : PulledTemplate) : Option (List String) :=
  coalesce pt.serialized.input_variables pt.inputVariables

/-- `currentPrompt?.description`. -/
def remoteDescription (hub : Hub) : Option String :=
  hub.currentPrompt.bind RemotePrompt.description

/-- `currentPrompt?.tags`. -/
def remoteTags (hub : Hub) : Option (List String) :=
  hub.currentPrompt.bind RemotePrompt.tags

/-- `currentPrompt?.readme`. -/
def remoteReadme (hub : Hub) : Option String :=
  hub.currentPrompt.bind RemotePrompt.readme

/-- `currentPrompt?.is_public`. -/
def remoteIsPublic (hub : Hub) : Option Bool :=
  hub.currentPrompt.bind RemotePrompt.is_public

/-- `PromptManager.updatePrompt`, translated line by line from the manager
source. Returns the definition handed to `push` (or the error raised) and
the trace of hub interactions: the existence probe, then — only if the
probe succeeds — the parallel metadata fetch and template pull, then — only
if merging succeeds — the publish. -/
def updatePrompt (hub : Hub) (promptId : String) (u : PromptUpdate) :
    Except PromptError PublishedPrompt × List HubEvent :=
  if hub.promptExists = false then
    (.error (.notFound promptId), [.probe])
  else
    match hub.pulled with
    | none => (.error (.loadFailed promptId), [.probe, .fetch, .pull])
    | some pt =>
      -- `if (existingTemplate && typeof existingTemplate !== "string") throw`
      if pt.serialized.template = some .structured then
        (.error .unsupportedTemplateType, [.probe, .fetch, .pull])
      else
        match coalesce u.template (remoteTemplate pt) with
        | none => (.error .missingTemplate, [.probe, .fetch, .pull])
        | some template =>
          (.ok
            { template := template
              templateFormat :=
                (coalesce u.templateFormat (remoteFormat pt)).getD .mustache
              inputVariables :=
                (coalesce u.templateVariables (remoteVars pt)).getD []
              description := coalesce u.description (remoteDescription hub)
              tags := coalesce u.tags (remoteTags hub)
              readme := coalesce u.readme (remoteReadme hub)
              isPublic := (coalesce u.isPublic (remoteIsPublic hub)).getD false },
           [.probe, .fetch, .pull, .publish])

/-- `PromptManager.createPrompt`: applies the codec defaults and publishes
unconditionally — the hub state is never consulted (no probe, no fetch). -/
def createPrompt (_hub : Hub) (_promptId : String) (d : PromptDefinition) :
    PublishedPrompt × List HubEvent :=
  ({ template := d.template
     templateFormat := d.templateFormat.getD .mustache
     inputVariables := d.templateVariables.getD []
     description := d.description
     tags := d.tags
     readme := d.readme
     isPublic := d.isPublic.getD false },
   [.publish])

/-- `PromptManager.getPrompt`: probe existence; absent gives `null` (a
success-shaped result) with no further I/O; present pulls and renders
(rendering is the external langchain call, provided by the oracle). -/
def getPrompt (hub : Hub) : Except PromptError (Option String) × List HubEvent :=
  if hub.promptExists = false then
    (.ok none, [.probe])
  else
    (.ok hub.rendered, [.probe, .pull])

/-- `PromptManager.deletePrompt`: probe existence, fail with the
NotFound-class error when absent, otherwise delete. -/
def deletePrompt (hub : Hub) (promptId : String) :
    Except PromptError Unit × List HubEvent :=
  if hub.promptExists = false then
    (.error (.notFound promptId), [.probe])
  else
    (.ok (), [.probe, .delete])

/-- The filter object passed to `client.listPrompts(...)`. -/
structure ListPromptsRequest where
  isPublic : Bool
  isArchived : Bool
  query : Option String
deriving DecidableEq, Repr

/-- The request `PromptManager.listPrompts` issues to the hub:
`{ isPublic: false, isArchived: false, query }`. -/
def listPromptsRequest (query : Option String) : ListPromptsRequest :=
  { isPublic := false, isArchived := false, query := query }

/-- Comparator of `PromptManager.listPrompts`:
`(a, b) => new Date(b.updated_at).getTime() - new Date(a.updated_at).getTime()`,
i.e. `a` may precede `b` exactly when `a.updated_at ≥ b.updated_at`. -/
def listLE (a b : Prompt) : Bool :=
  b.updated_at ≤ a.updated_at

/-- `PromptManager.listPrompts` applied to the sequence the hub yields:
a stable descending sort by `updated_at` (ECMAScript `Array.prototype.sort`
is required to be stable). -/
def listPrompts (hubPrompts : List Prompt) : List Prompt :=
  hubPrompts.mergeSort listLE

/-- The fixed location string of the stub manager in `api/mcp.js`. -/
def promptUrl (promptId : String) : String :=
  "https://smith.langchain.com/prompts/" ++ promptId

/-- `api/mcp.js` stub `listPrompts`: always the empty list, no hub call. -/
def stubListPrompts (_query : Option String) : List Prompt := []

/-- `api/mcp.js` stub `getPrompt`: always `null`, no hub call. -/
def stubGetPrompt (_promptId : String)
    (_variables : List (String × String)) : Option String := none

/-- `api/mcp.js` stub `createPrompt`: a fixed URL, no hub call. -/
def stubCreatePrompt (promptId : String) (_d : PromptDefinition) : String :=
  promptUrl promptId

/-- `api/mcp.js` stub `updatePrompt`: a fixed URL, no hub call. -/
def stubUpdatePrompt (promptId : String) (_u : PromptUpdate) : String :=
  promptUrl promptId

/-- JS `String.prototype.trim`: strip leading and trailing whitespace,
written with structural recursion so that it evaluates. -/
def jsTrim (s : String) : String :=
  ⟨((s.data.dropWhile Char.isWhitespace).reverse.dropWhile Char.isWhitespace).reverse⟩

/-- JS truthiness for a resolved key: `if (!key) throw`, where the falsy
strings are exactly the empty string (after an `??` chain the key is a
string or nullish). -/
def keyTruthy (k : String) : Bool := !(k = "")

/-- `resolveApiKey` of the remote MCP surface (`api/[transport].ts`):
`explicitApiKey ?? (bearerToken && bearerToken.trim()) ?? env`, then a
truthiness check. A present bearer token contributes its trimmed value
(which the `??` chain accepts even when it is empty). -/
def resolveApiKeyRemote (explicitApiKey bearerToken envKey : Option String) :
    Except PromptError String :=
  let key : Option String :=
    coalesce explicitApiKey
      (coalesce (bearerToken.map jsTrim) envKey)
  match key with
  | none => .error .missingCredential
  | some k => if keyTruthy k then .ok k else .error .missingCredential

/-- `resolveApiKey` of the CLI: `globalOptions.apiKey ?? env`, then the
same truthiness check. The CLI has no bearer level. -/
def resolveApiKeyCli (optApiKey envKey : Option String) :
    Except PromptError String :=
  match coalesce optApiKey envKey with
  | none => .error .missingCredential
  | some k => if keyTruthy k then .ok k else .error .missingCredential

/-- The `prompts_list` MCP tool handler: resolve the credential first, and
only then construct the manager and call `listPrompts`. The boolean records
whether a manager operation was invoked. -/
def promptsListTool (envKey bearerToken apiKey query : Option String)
    (hubPrompts : List Prompt) :
    Except PromptError (List Prompt) × Bool :=
  match resolveApiKeyRemote apiKey bearerToken envKey with
  | .error e => (.error e, false)
  | .ok _ =>
    let _ := listPromptsRequest query
    (.ok (listPrompts hubPrompts), true)

/-- The CLI `list` action: `createManager` (credential resolution) before
the manager call. -/
def cliListAction (optApiKey envKey query : Option String)
    (hubPrompts : List Prompt) :
    Except PromptError (List Prompt) × Bool :=
  match resolveApiKeyCli optApiKey envKey with
  | .error e => (.error e, false)
  | .ok _ =>
    let _ := listPromptsRequest query
    (.ok (listPrompts hubPrompts), true)

/-- Parsed option values of the CLI `update` command, after the purely
local validations (file loading, JSON parsing, format validation,
`--public`/`--private` resolution) have produced their optional values. -/
structure CliUpdateOptions where
  template : Option String := none
  format : Option TemplateFormat := none
  -- the `--variables` option (`variables` is reserved in Lean)
  vars : Option (List String) := none
  tags : Option (List String) := none
  description : Option String := none
  readme : Option String := none
  isPublic : Option Bool := none
deriving DecidableEq, Repr

/-- The update object the CLI `update` action builds: a key is assigned
exactly when the corresponding option was supplied. -/
def buildCliUpdate (o : CliUpdateOptions) : PromptUpdate :=
  { template := o.template
    templateFormat := o.format
    templateVariables := o.vars
    tags := o.tags
    description := o.description
    readme := o.readme
    isPublic := o.isPublic }

/-- The CLI `update` action: build the update object, fail with
"Nothing to update" when it is empty — before `createManager` and before
any manager operation — and otherwise run `updatePrompt`. -/
def cliUpdateAction (o : CliUpdateOptions) (hub : Hub) (promptId : String) :
    Except PromptError PublishedPrompt × List HubEvent :=
  let updates := buildCliUpdate o
  if updates.isEmpty then
    (.error .nothingToUpdate, [])
  else
    updatePrompt hub promptId updates

/-- Arguments of the MCP `prompt_update` tool. -/
structure McpUpdateArgs where
  template : Option String := none
  format : Option TemplateFormat := none
  -- the `variables` argument (`variables` is reserved in Lean)
  vars : Option (List String) := none
  tags : Option (List String) := none
  description : Option String := none
  readme : Option String := none
  isPublic : Option Bool := none
  apiKey : Option String := none
deriving DecidableEq, Repr

/-- The update object the `prompt_update` tool builds: a key is assigned
exactly when the corresponding argument was supplied. -/
def buildMcpUpdate (o : McpUpdateArgs) : PromptUpdate :=
  { template := o.template
    templateFormat := o.format
    templateVariables := o.vars
    tags := o.tags
    description := o.description
    readme := o.readme
    isPublic := o.isPublic }

/-- The MCP `prompt_update` tool handler: resolve the credential, build the
update object, fail with "Nothing to update" when it is empty — before any
manager operation — and otherwise run `updatePrompt`. -/
def mcpPromptUpdateTool (envKey bearerToken : Option String)
    (o : McpUpdateArgs) (hub : Hub) (promptId : String) :
    Except PromptError PublishedPrompt × List HubEvent :=
  match resolveApiKeyRemote o.apiKey bearerToken envKey with
  | .error e => (.error e, [])
  | .ok _ =>
    let updates := buildMcpUpdate o
    if updates.isEmpty then
      (.error .nothingToUpdate, [])
    else
      updatePrompt hub promptId updates

/-- The MCP `prompt_show` tool handler: resolve the credential, call
`getPrompt`, and treat a falsy rendering (`null` or the empty string,
`if (!rendered) throw`) as "was not found". -/
def mcpShowTool (envKey bearerToken apiKey : Option String) (hub : Hub)
    (promptId : String) : Except PromptError String × List HubEvent :=
  match resolveApiKeyRemote apiKey bearerToken envKey with
  | .error e => (.error e, [])
  | .ok _ =>
    match getPrompt hub with
    | (.ok none, evs) => (.error (.notFound promptId), evs)
    | (.ok (some s), evs) =>
      if s = "" then (.error (.notFound promptId), evs) else (.ok s, evs)
    | (.error e, evs) => (.error e, evs)

/-- The CLI `show` action: `createManager` (credential resolution), then
`getPrompt`, and a falsy rendering (`if (!prompt)`) fails as not found. -/
def cliShowAction (optApiKey envKey : Option String) (hub : Hub)
    (promptId : String) : Except PromptError String × List HubEvent :=
  match resolveApiKeyCli optApiKey envKey with
  | .error e => (.error e, [])
  | .ok _ =>
    match getPrompt hub with
    | (.ok none, evs) => (.error (.notFound promptId), evs)
    | (.ok (some s), evs) =>
      if s = "" then (.error (.notFound promptId), evs) else (.ok s, evs)
    | (.error e, evs) => (.error e, evs)

/-- The MCP `prompt_create` tool handler: resolve the credential, then run
the manager's `createPrompt` on the assembled definition. -/
def mcpCreateTool (envKey bearerToken apiKey : Option String) (hub : Hub)
    (promptId : String) (d : PromptDefinition) :
    Except PromptError PublishedPrompt × List HubEvent :=
  match resolveApiKeyRemote apiKey bearerToken envKey with
  | .error e => (.error e, [])
  | .ok _ => (.ok (createPrompt hub promptId d).1, (createPrompt hub promptId d).2)

/-- The CLI `create` action: `createManager`, then the manager's
`createPrompt` on the assembled definition. -/
def cliCreateAction (optApiKey envKey : Option String) (hub : Hub)
    (promptId : String) (d : PromptDefinition) :
    Except PromptError PublishedPrompt × List HubEvent :=
  match resolveApiKeyCli optApiKey envKey with
  | .error e => (.error e, [])
  | .ok _ => (.ok (createPrompt hub promptId d).1, (createPrompt hub promptId d).2)

/-- The MCP `prompt_delete` tool handler: resolve the credential, then run
the manager's `deletePrompt`. -/
def mcpDeleteTool (envKey bearerToken apiKey : Option String) (hub : Hub)
    (promptId : String) : Except PromptError Unit × List HubEvent :=
  match resolveApiKeyRemote apiKey bearerToken envKey with
  | .error e => (.error e, [])
  | .ok _ => deletePrompt hub promptId

/-- The CLI `delete` action: `createManager`, then the manager's
`deletePrompt`. -/
def cliDeleteAction (optApiKey envKey : Option String) (hub : Hub)
    (promptId : String) : Except PromptError Unit × List HubEvent :=
  match resolveApiKeyCli optApiKey envKey with
  | .error e => (.error e, [])
  | .ok _ => deletePrompt hub promptId

/-- The JSON-RPC `list_prompts` tool call of `api/mcp.js`: the stub manager
is constructed from the environment key without any check (`new
MCPServer(process.env.LANGSMITH_API_KEY)` accepts `undefined`), so the call
succeeds with the stub result even when no key is present at any level. -/
def rpcListPromptsCall (_envKey query : Option String) :
    Except PromptError (List Prompt) :=
  .ok (stubListPrompts query)

/-- Formalisation of the spec sentence behind claim C1, to be compared with
`updatePrompt`: "Merge, field by field, in this precedence: value in
`PromptUpdate` (if provided) > current remote value > TemplateCodec default
(format only)" — that is, a codec default may stand in for an absent remote
value only in the `templateFormat` field; every other published field must
equal the update value or, failing that, the current remote value. -/
def mergeSpecFormatOnly (hub : Hub) (pt : PulledTemplate) (u : PromptUpdate)
    (p : PublishedPrompt) : Bool :=
  (some p.template = coalesce u.template (remoteTemplate pt)) &&
  (p.templateFormat = (coalesce u.templateFormat (remoteFormat pt)).getD .mustache) &&
  (some p.inputVariables = coalesce u.templateVariables (remoteVars pt)) &&
  (p.description = coalesce u.description (remoteDescription hub)) &&
  (p.tags = coalesce u.tags (remoteTags hub)) &&
  (p.readme = coalesce u.readme (remoteReadme hub)) &&
  (some p.isPublic = coalesce u.isPublic (remoteIsPublic hub))

/-! ### Concrete fixtures used by counterexamples and witnesses -/

/-- A pulled template whose serialization omits the variable list (and whose
template object also carries none), as the fallback chain of the source
anticipates. -/
def ptC1 : PulledTemplate :=
  { serialized :=
      { template := some (.str "hello")
        template_format := some .fstring
        input_variables := none }
    templateFormat := none
    inputVariables := none }

/-- A hub state whose metadata record omits `is_public`. -/
def hubC1 : Hub :=
  { promptExists := true
    currentPrompt :=
      some { description := some "d", tags := some ["t"], readme := none, is_public := none }
    pulled := some ptC1
    rendered := none }

/-- What `updatePrompt hubC1 _ emptyUpdate` publishes. -/
def pubC1 : PublishedPrompt :=
  { template := "hello"
    templateFormat := .fstring
    inputVariables := []
    description := some "d"
    tags := some ["t"]
    readme := none
    isPublic := false }

/-- A pulled template with every remote value present. -/
def ptC2 : PulledTemplate :=
  { serialized :=
      { template := some (.str "Hi {{name}}")
        template_format := some .mustache
        input_variables := some ["name"] }
    templateFormat := some .mustache
    inputVariables := some ["name"] }

/-- A hub state with every metadata field present. -/
def hubC2 : Hub :=
  { promptExists := true
    currentPrompt :=
      some { description := some "greeting", tags := some ["a", "b"],
             readme := some "rm", is_public := some true }
    pulled := some ptC2
    rendered := none }

/-- A concrete hub prompt record. -/
def pC3 : Prompt :=
  { full_name := "org/welcome", updated_at := 1000, description := none, tags := [] }

/-- A hub state whose existence probe reports absence. -/
def hubC4 : Hub :=
  { promptExists := false
    currentPrompt := none
    pulled := some ptC2
    rendered := some "unused" }

/-- A pulled template whose serialized body is structured (not a string). -/
def ptC5 : PulledTemplate :=
  { serialized :=
      { template := some .structured
        template_format := some .fstring
        input_variables := some ["x"] }
    templateFormat := none
    inputVariables := none }

/-- A hub state returning a structured template on pull. -/
def hubC5 : Hub :=
  { promptExists := true
    currentPrompt := some { description := none, tags := none, readme := none, is_public := none }
    pulled := some ptC5
    rendered := none }

/-- A hub state for the absent-prompt rendering probe. -/
def hubC7 : Hub :=
  { promptExists := false
    currentPrompt := none
    pulled := none
    rendered := none }

/-- A hub state for the empty-update fail-fast checks (its content is
irrelevant: the surfaces must reject before touching it). -/
def hubC10 : Hub :=
  { promptExists := true, currentPrompt := none, pulled := none, rendered := none }

/-! ### Claims -/

/-- C4: for every promptId whose existence probe reports absence and every
`PromptUpdate`, `updatePrompt` fails with the NotFound-class error and the
existence probe is the only hub interaction: no fetch, no publish. -/
theorem c4_update_absent_not_found (hub : Hub) (promptId : String)
    (u : PromptUpdate) (h : hub.promptExists = false) :
    updatePrompt hub promptId u = (.error (.notFound promptId), [.probe]) ∧
      HubEvent.fetch ∉ (updatePrompt hub promptId u).2 ∧
      HubEvent.publish ∉ (updatePrompt hub promptId u).2 := by
  refine ⟨?_, ?_, ?_⟩ <;> simp [updatePrompt, h]

/-- Witness for C4 at a concrete absent-prompt hub state. -/
theorem c4_update_absent_not_found_witness :
    updatePrompt hubC4 "org/missing" emptyUpdate =
        (.error (.notFound "org/missing"), [.probe]) ∧
      HubEvent.fetch ∉ (updatePrompt hubC4 "org/missing" emptyUpdate).2 ∧
      HubEvent.publish ∉ (updatePrompt hubC4 "org/missing" emptyUpdate).2 :=
  c4_update_absent_not_found hubC4 "org/missing" emptyUpdate rfl

/-- C5: for every `updatePrompt` call on an existing prompt whose current
remote serialized template is not a plain string, the operation fails with
the UnsupportedTemplateType error and nothing is published. -/
theorem c5_structured_template_rejected (hub : Hub) (promptId : String)
    (u : PromptUpdate) (pt : PulledTemplate)
    (hex : hub.promptExists = true) (hpt : hub.pulled = some pt)
    (hstruct : pt.serialized.template = some .structured) :
    updatePrompt hub promptId u =
        (.error .unsupportedTemplateType, [.probe, .fetch, .pull]) ∧
      HubEvent.publish ∉ (updatePrompt hub promptId u).2 := by
  constructor <;> simp [updatePrompt, hex, hpt, hstruct]

/-- Witness for C5 at a concrete hub state with a structured template. -/
theorem c5_structured_template_rejected_witness :
    updatePrompt hubC5 "org/p" emptyUpdate =
        (.error .unsupportedTemplateType, [.probe, .fetch, .pull]) ∧
      HubEvent.publish ∉ (updatePrompt hubC5 "org/p" emptyUpdate).2 :=
  c5_structured_template_rejected hubC5 "org/p" emptyUpdate ptC5 rfl rfl rfl

/-- C6: for every promptId and `PromptDefinition`, `createPrompt` fills each
missing field with its codec default — format `mustache`, variables `[]`,
`isPublic` `false` — and publishes unconditionally: whatever the hub state
(in particular when the prompt already exists), the publish happens and no
existence probe is made. -/
theorem c6_create_defaults_and_publishes (hub : Hub) (promptId : String)
    (d : PromptDefinition) :
    createPrompt hub promptId d =
        ({ template := d.template
           templateFormat := d.templateFormat.getD .mustache
           inputVariables := d.templateVariables.getD []
           description := d.description
           tags := d.tags
           readme := d.readme
           isPublic := d.isPublic.getD false },
         [.publish]) ∧
      HubEvent.probe ∉ (createPrompt hub promptId d).2 := by
  constructor <;> simp [createPrompt]

/-- C7: for every promptId, if the existence probe reports absence then
`getPrompt` returns `null` — a success-shaped result, not an error — and
performs no further I/O after the probe. -/
theorem c7_get_absent_returns_null (hub : Hub)
    (h : hub.promptExists = false) :
    getPrompt hub = (.ok none, [.probe]) ∧
      HubEvent.pull ∉ (getPrompt hub).2 ∧
      HubEvent.fetch ∉ (getPrompt hub).2 := by
  refine ⟨?_, ?_, ?_⟩ <;> simp [getPrompt, h]

/-- Witness for C7 at a concrete absent-prompt hub state. -/
theorem c7_get_absent_returns_null_witness :
    getPrompt hubC7 = (.ok none, [.probe]) ∧
      HubEvent.pull ∉ (getPrompt hubC7).2 ∧
      HubEvent.fetch ∉ (getPrompt hubC7).2 :=
  c7_get_absent_returns_null hubC7 rfl

/-- C1 counterexample: at a hub state whose metadata omits `is_public` and
whose pulled template carries no variable list, `updatePrompt` with the
empty update succeeds and publishes `isPublic := false` and
`inputVariables := []` — codec defaults applied to fields other than the
template format — so the published definition violates the spec's
"default for format only" merge description. -/
theorem c1_counterexample :
    updatePrompt hubC1 "org/p" emptyUpdate =
        (.ok pubC1, [.probe, .fetch, .pull, .publish]) ∧
      mergeSpecFormatOnly hubC1 ptC1 emptyUpdate pubC1 = false :=
  ⟨rfl, rfl⟩

/-- C1 (amended): whenever `updatePrompt` publishes, each field follows the
precedence update value > current remote value > codec default, where the
codec default fills in not only the template format (`mustache`) but also
the variable list (`[]`) and the visibility (`false`); description, tags
and readme have no default and pass through verbatim. -/
theorem c1_update_merge (hub : Hub) (promptId : String) (u : PromptUpdate)
    (pt : PulledTemplate) (p : PublishedPrompt) (evs : List HubEvent)
    (hpt : hub.pulled = some pt)
    (hrun : updatePrompt hub promptId u = (.ok p, evs)) :
    some p.template = coalesce u.template (remoteTemplate pt) ∧
    p.templateFormat = (coalesce u.templateFormat (remoteFormat pt)).getD .mustache ∧
    p.inputVariables = (coalesce u.templateVariables (remoteVars pt)).getD [] ∧
    p.description = coalesce u.description (remoteDescription hub) ∧
    p.tags = coalesce u.tags (remoteTags hub) ∧
    p.readme = coalesce u.readme (remoteReadme hub) ∧
    p.isPublic = (coalesce u.isPublic (remoteIsPublic hub)).getD false := by
  unfold updatePrompt at hrun
  by_cases hex : hub.promptExists = false
  · simp [hex] at hrun
  · simp only [hex, if_false, hpt] at hrun
    by_cases hstruct : pt.serialized.template = some .structured
    · simp [hstruct] at hrun
    · simp only [hstruct, if_false] at hrun
      cases htem : coalesce u.template (remoteTemplate pt) with
      | none => rw [htem] at hrun; simp at hrun
      | some t =>
        rw [htem] at hrun
        injection hrun with h1 h2
        injection h1 with hp
        subst hp
        exact ⟨htem ▸ rfl, rfl, rfl, rfl, rfl, rfl, rfl⟩

/-- Witness for the amended C1 merge theorem at a concrete run. -/
theorem c1_update_merge_witness :
    some pubC1.template = coalesce emptyUpdate.template (remoteTemplate ptC1) ∧
    pubC1.templateFormat =
      (coalesce emptyUpdate.templateFormat (remoteFormat ptC1)).getD .mustache ∧
    pubC1.inputVariables =
      (coalesce emptyUpdate.templateVariables (remoteVars ptC1)).getD [] ∧
    pubC1.description = coalesce emptyUpdate.description (remoteDescription hubC1) ∧
    pubC1.tags = coalesce emptyUpdate.tags (remoteTags hubC1) ∧
    pubC1.readme = coalesce emptyUpdate.readme (remoteReadme hubC1) ∧
    pubC1.isPublic = (coalesce emptyUpdate.isPublic (remoteIsPublic hubC1)).getD false :=
  c1_update_merge hubC1 "org/p" emptyUpdate ptC1 pubC1
    [.probe, .fetch, .pull, .publish] rfl rfl

/-- C2: on an existing prompt whose remote template is a string,
`updatePrompt` with the empty update republishes every existing field
verbatim: template, description, tags and readme pass through unchanged,
and format, variables and visibility equal the current remote value
whenever the remote carries one. -/
theorem c2_empty_update_preserves (hub : Hub) (promptId : String)
    (pt : PulledTemplate) (s : String)
    (hex : hub.promptExists = true) (hpt : hub.pulled = some pt)
    (hstr : pt.serialized.template = some (.str s)) :
    ∃ p, updatePrompt hub promptId emptyUpdate =
        (.ok p, [.probe, .fetch, .pull, .publish]) ∧
      p.template = s ∧
      p.description = remoteDescription hub ∧
      p.tags = remoteTags hub ∧
      p.readme = remoteReadme hub ∧
      (∀ f, remoteFormat pt = some f → p.templateFormat = f) ∧
      (∀ vs, remoteVars pt = some vs → p.inputVariables = vs) ∧
      (∀ b, remoteIsPublic hub = some b → p.isPublic = b) := by
  refine ⟨{ template := s
            templateFormat := (remoteFormat pt).getD .mustache
            inputVariables := (remoteVars pt).getD []
            description := remoteDescription hub
            tags := remoteTags hub
            readme := remoteReadme hub
            isPublic := (remoteIsPublic hub).getD false },
    ?_, rfl, rfl, rfl, rfl, ?_, ?_, ?_⟩
  · simp [updatePrompt, hex, hpt, hstr, emptyUpdate, coalesce, remoteTemplate,
      TemplateValue.asString]
  · intro f hf; simp [hf]
  · intro vs hvs; simp [hvs]
  · intro b hb; simp [hb]

/-- Witness for C2 at a hub state with every metadata field present. -/
theorem c2_empty_update_preserves_witness :
    ∃ p, updatePrompt hubC2 "org/p" emptyUpdate =
        (.ok p, [.probe, .fetch, .pull, .publish]) ∧
      p.template = "Hi {{name}}" ∧
      p.description = remoteDescription hubC2 ∧
      p.tags = remoteTags hubC2 ∧
      p.readme = remoteReadme hubC2 ∧
      (∀ f, remoteFormat ptC2 = some f → p.templateFormat = f) ∧
      (∀ vs, remoteVars ptC2 = some vs → p.inputVariables = vs) ∧
      (∀ b, remoteIsPublic hubC2 = some b → p.isPublic = b) :=
  c2_empty_update_preserves hubC2 "org/p" ptC2 "Hi {{name}}" rfl rfl rfl

/-- The list comparator is transitive. -/
theorem listLE_trans (a b c : Prompt) : listLE a b → listLE b c → listLE a c := by
  simp only [listLE, decide_eq_true_eq]
  omega

/-- The list comparator is total. -/
theorem listLE_total (a b : Prompt) : listLE a b || listLE b a := by
  simp only [listLE, Bool.or_eq_true, decide_eq_true_eq]
  omega

/-- C8: `listPrompts` requests only private, non-archived prompts, and for
every hub-provided sequence returns a permutation of it that is sorted
descending by `updated_at`, with ties retaining the hub-provided order
(the elements at any fixed `updated_at` appear exactly as in the input). -/
theorem c8_list_sorted_stable (l : List Prompt) (q : Option String) :
    (listPromptsRequest q).isPublic = false ∧
    (listPromptsRequest q).isArchived = false ∧
    (listPromptsRequest q).query = q ∧
    List.Perm (listPrompts l) l ∧
    (listPrompts l).Pairwise (fun a b => b.updated_at ≤ a.updated_at) ∧
    (∀ t : Nat, (listPrompts l).filter (fun p => p.updated_at == t) =
      l.filter (fun p => p.updated_at == t)) := by
  refine ⟨rfl, rfl, rfl, List.mergeSort_perm l listLE, ?_, ?_⟩
  · have h := List.sorted_mergeSort listLE_trans listLE_total l
    exact h.imp (fun hab => by simpa [listLE] using hab)
  · intro t
    set f : Prompt → Bool := fun p => p.updated_at == t with hf
    have hmem : ∀ a ∈ l.filter f, a.updated_at = t := by
      intro a ha
      have := (List.mem_filter.mp ha).2
      simpa [hf] using this
    have hpw : (l.filter f).Pairwise (fun a b => listLE a b) := by
      apply List.pairwise_of_forall_mem_list
      intro a ha b hb
      simp [listLE, hmem a ha, hmem b hb]
    have hsub : List.Sublist (l.filter f) (List.mergeSort l listLE) :=
      List.sublist_mergeSort listLE_trans listLE_total hpw (List.filter_sublist l)
    have hsub2 : List.Sublist (l.filter f) ((List.mergeSort l listLE).filter f) := by
      have hself : (l.filter f).filter f = l.filter f :=
        List.filter_eq_self.mpr (fun a ha => by simp [hf, hmem a ha])
      simpa [hself] using hsub.filter f
    have hperm : List.Perm ((List.mergeSort l listLE).filter f) (l.filter f) :=
      (List.mergeSort_perm l listLE).filter f
    exact (hsub2.eq_of_length hperm.length_eq.symm).symm

/-- C3 counterexample: for the same arguments (no query), the JSON-RPC
stub `listPrompts` and the manager-backed `listPrompts` used by the CLI
and MCP tools return different results as soon as the hub holds one
prompt. -/
theorem c3_counterexample : stubListPrompts none ≠ listPrompts [pC3] := by
  simp [stubListPrompts, listPrompts]

/-- C3 (amended): the CLI and MCP bindings invoke the same Manager
operation for each of the five operations and, once their credentials
resolve, return identical results; the JSON-RPC endpoint's tool
implementations, however, are non-functional stubs — list always empty,
show always `null`, create/update always the fixed location URL, all
without any hub interaction — so the JSON-RPC results differ from the MCP
tools whenever the hub reports any prompt. -/
theorem c3_rpc_stub_not_equivalent :
    (∀ q : Option String, stubListPrompts q = []) ∧
    (∀ (promptId : String) (vs : List (String × String)),
      stubGetPrompt promptId vs = none) ∧
    (∀ (promptId : String) (d : PromptDefinition),
      stubCreatePrompt promptId d = promptUrl promptId) ∧
    (∀ (promptId : String) (u : PromptUpdate),
      stubUpdatePrompt promptId u = promptUrl promptId) ∧
    (∀ (e b a oc ec : Option String) (kR kC : String) (q : Option String)
        (hp : List Prompt),
      resolveApiKeyRemote a b e = .ok kR → resolveApiKeyCli oc ec = .ok kC →
        promptsListTool e b a q hp = (.ok (listPrompts hp), true) ∧
        cliListAction oc ec q hp = (.ok (listPrompts hp), true)) ∧
    (∀ (e b a oc ec : Option String) (kR kC : String) (hub : Hub)
        (promptId : String),
      resolveApiKeyRemote a b e = .ok kR → resolveApiKeyCli oc ec = .ok kC →
        mcpShowTool e b a hub promptId = cliShowAction oc ec hub promptId) ∧
    (∀ (e b a oc ec : Option String) (kR kC : String) (hub : Hub)
        (promptId : String) (d : PromptDefinition),
      resolveApiKeyRemote a b e = .ok kR → resolveApiKeyCli oc ec = .ok kC →
        mcpCreateTool e b a hub promptId d = cliCreateAction oc ec hub promptId d ∧
        cliCreateAction oc ec hub promptId d =
          (.ok (createPrompt hub promptId d).1, (createPrompt hub promptId d).2)) ∧
    (∀ (e b : Option String) (o : McpUpdateArgs) (oc : CliUpdateOptions)
        (k : String) (hub : Hub) (promptId : String),
      resolveApiKeyRemote o.apiKey b e = .ok k →
      buildMcpUpdate o = buildCliUpdate oc →
        mcpPromptUpdateTool e b o hub promptId = cliUpdateAction oc hub promptId) ∧
    (∀ (e b a oc ec : Option String) (kR kC : String) (hub : Hub)
        (promptId : String),
      resolveApiKeyRemote a b e = .ok kR → resolveApiKeyCli oc ec = .ok kC →
        mcpDeleteTool e b a hub promptId = cliDeleteAction oc ec hub promptId ∧
        cliDeleteAction oc ec hub promptId = deletePrompt hub promptId) ∧
    (∀ hubPrompts : List Prompt, hubPrompts ≠ [] →
      stubListPrompts none ≠ listPrompts hubPrompts) := by
  refine ⟨fun _ => rfl, fun _ _ => rfl, fun _ _ => rfl, fun _ _ => rfl,
    ?_, ?_, ?_, ?_, ?_, ?_⟩
  · intro e b a oc ec kR kC q hp hR hC
    exact ⟨by simp [promptsListTool, hR], by simp [cliListAction, hC]⟩
  · intro e b a oc ec kR kC hub promptId hR hC
    simp [mcpShowTool, cliShowAction, hR, hC]
  · intro e b a oc ec kR kC hub promptId d hR hC
    exact ⟨by simp [mcpCreateTool, cliCreateAction, hR, hC],
      by simp [cliCreateAction, hC]⟩
  · intro e b o oc k hub promptId hres hbuild
    simp [mcpPromptUpdateTool, cliUpdateAction, hres, hbuild]
  · intro e b a oc ec kR kC hub promptId hR hC
    exact ⟨by simp [mcpDeleteTool, cliDeleteAction, hR, hC],
      by simp [cliDeleteAction, hC]⟩
  · intro hp hne hcontra
    apply hne
    have hlen : (listPrompts hp).length = hp.length :=
      (List.mergeSort_perm hp listLE).length_eq
    rw [← hcontra] at hlen
    exact List.eq_nil_of_length_eq_zero hlen.symm

/-- Witness for the amended C3 theorem: concrete agreement of the CLI and
MCP bindings on each operation under resolved keys, and the stub/manager
divergence on a two-element hub listing. -/
theorem c3_rpc_stub_not_equivalent_witness :
    (promptsListTool none none (some "k") none [pC3] =
        (.ok (listPrompts [pC3]), true) ∧
      cliListAction (some "k") none none [pC3] =
        (.ok (listPrompts [pC3]), true)) ∧
    mcpShowTool none none (some "k") hubC2 "org/p" =
      cliShowAction (some "k") none hubC2 "org/p" ∧
    (mcpCreateTool none none (some "k") hubC10 "org/p"
          { template := "t", templateFormat := none, templateVariables := none,
            description := none, tags := none, readme := none, isPublic := none } =
        cliCreateAction (some "k") none hubC10 "org/p"
          { template := "t", templateFormat := none, templateVariables := none,
            description := none, tags := none, readme := none, isPublic := none } ∧
      cliCreateAction (some "k") none hubC10 "org/p"
          { template := "t", templateFormat := none, templateVariables := none,
            description := none, tags := none, readme := none, isPublic := none } =
        (.ok (createPrompt hubC10 "org/p"
            { template := "t", templateFormat := none, templateVariables := none,
              description := none, tags := none, readme := none, isPublic := none }).1,
          (createPrompt hubC10 "org/p"
            { template := "t", templateFormat := none, templateVariables := none,
              description := none, tags := none, readme := none, isPublic := none }).2)) ∧
    mcpPromptUpdateTool none none { description := some "d", apiKey := some "k" }
        hubC2 "org/p" =
      cliUpdateAction { description := some "d" } hubC2 "org/p" ∧
    (mcpDeleteTool none none (some "k") hubC2 "org/p" =
        cliDeleteAction (some "k") none hubC2 "org/p" ∧
      cliDeleteAction (some "k") none hubC2 "org/p" = deletePrompt hubC2 "org/p") ∧
    stubListPrompts none ≠ listPrompts [pC3, pC3] :=
  ⟨c3_rpc_stub_not_equivalent.2.2.2.2.1 none none (some "k") (some "k") none
      "k" "k" none [pC3] rfl rfl,
   c3_rpc_stub_not_equivalent.2.2.2.2.2.1 none none (some "k") (some "k") none
      "k" "k" hubC2 "org/p" rfl rfl,
   c3_rpc_stub_not_equivalent.2.2.2.2.2.2.1 none none (some "k") (some "k") none
      "k" "k" hubC10 "org/p"
      { template := "t", templateFormat := none, templateVariables := none,
        description := none, tags := none, readme := none, isPublic := none }
      rfl rfl,
   c3_rpc_stub_not_equivalent.2.2.2.2.2.2.2.1 none none
      { description := some "d", apiKey := some "k" } { description := some "d" }
      "k" hubC2 "org/p" rfl rfl,
   c3_rpc_stub_not_equivalent.2.2.2.2.2.2.2.2.1 none none (some "k") (some "k")
      none "k" "k" hubC2 "org/p" rfl rfl,
   c3_rpc_stub_not_equivalent.2.2.2.2.2.2.2.2.2 [pC3, pC3] (by simp)⟩

/-- C9 counterexample: at the JSON-RPC transport a call with no key at any
level — no per-call override, no bearer token, no environment key — does
not fail with the MissingCredential-class error: it succeeds with the stub
result, violating the claimed every-transport fail-fast (and the claimed
precedence, which that transport does not implement at all). -/
theorem c9_counterexample :
    rpcListPromptsCall none none = .ok (stubListPrompts none) ∧
      rpcListPromptsCall none none ≠ .error .missingCredential :=
  ⟨rfl, fun h => nomatch h⟩

/-- C9 (amended): at the MCP-tool and CLI transports the API key resolves
with precedence explicit per-call override > bearer token (remote only,
taken trimmed) > environment fallback; when nothing resolves, the call
fails with the MissingCredential-class error before invoking any manager
operation. The JSON-RPC transport implements none of this: its tool calls
succeed with stub results with no key check at any level. -/
theorem c9_credential_resolution :
    (∀ (e : String) (b v : Option String), e ≠ "" →
        resolveApiKeyRemote (some e) b v = .ok e) ∧
    (∀ (b : String) (v : Option String), jsTrim b ≠ "" →
        resolveApiKeyRemote none (some b) v = .ok (jsTrim b)) ∧
    (∀ v : String, v ≠ "" → resolveApiKeyRemote none none (some v) = .ok v) ∧
    resolveApiKeyRemote none none none = .error .missingCredential ∧
    (∀ (k : String) (v : Option String), k ≠ "" → resolveApiKeyCli (some k) v = .ok k) ∧
    (∀ v : String, v ≠ "" → resolveApiKeyCli none (some v) = .ok v) ∧
    resolveApiKeyCli none none = .error .missingCredential ∧
    (∀ (q : Option String) (hp : List Prompt),
      promptsListTool none none none q hp = (.error .missingCredential, false)) ∧
    (∀ (q : Option String) (hp : List Prompt),
      cliListAction none none q hp = (.error .missingCredential, false)) ∧
    (∀ e q : Option String, rpcListPromptsCall e q = .ok (stubListPrompts q)) := by
  refine ⟨?_, ?_, ?_, rfl, ?_, ?_, rfl, ?_, ?_, fun _ _ => rfl⟩ <;> intros <;>
    simp_all [resolveApiKeyRemote, resolveApiKeyCli, promptsListTool,
      cliListAction, coalesce, keyTruthy]

/-- Witness for C9 at concrete keys: the explicit override wins over both
bearer and environment, the trimmed bearer wins over the environment, and
the environment is used when nothing else is supplied. -/
theorem c9_credential_resolution_witness :
    resolveApiKeyRemote (some "k1") (some " b ") (some "env") = .ok "k1" ∧
    resolveApiKeyRemote none (some " b ") (some "env") = .ok (jsTrim " b ") ∧
    resolveApiKeyRemote none none (some "env") = .ok "env" ∧
    resolveApiKeyCli (some "k2") (some "env") = .ok "k2" ∧
    resolveApiKeyCli none (some "env") = .ok "env" :=
  ⟨c9_credential_resolution.1 "k1" (some " b ") (some "env") (by decide),
   c9_credential_resolution.2.1 " b " (some "env") (by decide),
   c9_credential_resolution.2.2.1 "env" (by decide),
   c9_credential_resolution.2.2.2.2.1 "k2" (some "env") (by decide),
   c9_credential_resolution.2.2.2.2.2.1 "env" (by decide)⟩

/-- C10: when the built update object is empty — which happens exactly when
no updatable field was supplied — the CLI `update` command and the MCP
`prompt_update` tool fail with the "Nothing to update" error before any
manager operation; consequently the manager's empty-update merge path is
unreachable through these two surfaces. -/
theorem c10_nothing_to_update :
    (∀ (o : CliUpdateOptions) (hub : Hub) (promptId : String),
      (buildCliUpdate o).isEmpty = true →
        cliUpdateAction o hub promptId = (.error .nothingToUpdate, [])) ∧
    (∀ o : CliUpdateOptions,
      (buildCliUpdate o).isEmpty =
        (o.template.isNone && o.format.isNone && o.vars.isNone &&
          o.description.isNone && o.tags.isNone && o.readme.isNone &&
          o.isPublic.isNone)) ∧
    (∀ (envKey bearerToken : Option String) (o : McpUpdateArgs) (hub : Hub)
        (promptId : String) (k : String),
      resolveApiKeyRemote o.apiKey bearerToken envKey = .ok k →
      (buildMcpUpdate o).isEmpty = true →
        mcpPromptUpdateTool envKey bearerToken o hub promptId =
          (.error .nothingToUpdate, [])) ∧
    (∀ o : McpUpdateArgs,
      (buildMcpUpdate o).isEmpty =
        (o.template.isNone && o.format.isNone && o.vars.isNone &&
          o.description.isNone && o.tags.isNone && o.readme.isNone &&
          o.isPublic.isNone)) := by
  refine ⟨?_, fun _ => rfl, ?_, fun _ => rfl⟩
  · intro o hub promptId h
    simp [cliUpdateAction, h]
  · intro envKey bearerToken o hub promptId k hres hempty
    simp [mcpPromptUpdateTool, hres, hempty]

/-- Witness for C10: with no updatable field supplied, both surfaces fail
fast with the "Nothing to update" error and perform no hub interaction. -/
theorem c10_nothing_to_update_witness :
    cliUpdateAction {} hubC10 "org/p" = (.error .nothingToUpdate, []) ∧
    mcpPromptUpdateTool (some "k") none {} hubC10 "org/p" =
      (.error .nothingToUpdate, []) :=
  ⟨c10_nothing_to_update.1 {} hubC10 "org/p" rfl,
   c10_nothing_to_update.2.2.1 (some "k") none {} hubC10 "org/p" "k" rfl rfl⟩
